import Mathlib

/- Shallow embedding of the database provider abstraction and of the HTTP
response wrapper of a TypeScript test-automation boilerplate.  The embedded
sources are src/db/types.ts, src/db/database-factory.ts, the four provider
clients (postgres.ts, mysql.ts, mssql.ts, sqlite.ts) and src/api/api-client.ts.
JavaScript truthiness of optional values is modelled by explicit helper
functions; the observable actions a client performs against its vendor driver
(creating a pool, checking out a connection, BEGIN / COMMIT / ROLLBACK,
running a statement, parsing a response body) are recorded in an event list,
and fallible operations return an Except value. -/

/- JavaScript values occurring as query parameters or as parsed JSON bodies. -/
inductive JsValue where
  | nullV
  | boolV (b : Bool)
  | numV (n : Int)
  | strV (s : String)
deriving DecidableEq

/- Errors thrown by the clients.  notConnected models the uniform
Error("Database not connected. Call connect() first.") thrown by every
provider; connectionFailed wraps a driver connection failure; userRaised
stands for an arbitrary error value thrown by caller-supplied code such as a
transaction body. -/
inductive DbError where
  | notConnected
  | connectionFailed (msg : String)
  | userRaised (code : Nat)
deriving DecidableEq

/- DatabaseConfig from src/db/types.ts.  The nested pool sizing object is
flattened to poolMin / poolMax; the ssl field of type boolean-or-object is
modelled by its truthiness. -/
structure DatabaseConfig where
  provider : String
  host : Option String := none
  port : Option Nat := none
  database : String
  user : Option String := none
  password : Option String := none
  filePath : Option String := none
  connectionString : Option String := none
  poolMin : Option Nat := none
  poolMax : Option Nat := none
  ssl : Bool := false
deriving DecidableEq

/- Truthiness of an optional JavaScript string: undefined and "" are falsy. -/
def strTruthy : Option String → Bool
  | none => false
  | some s => !(s == "")

/- JavaScript a || b for two strings ("" is falsy). -/
def jsOrS (a b : String) : String := if a == "" then b else a

/- JavaScript a || b where a may be undefined. -/
def jsOrOpt (a : Option String) (b : String) : String :=
  match a with
  | some s => jsOrS s b
  | none => b

/- JavaScript a || b for an optional number (0 and undefined are falsy). -/
def jsOrNat (a : Option Nat) (b : Nat) : Nat :=
  match a with
  | some n => if n == 0 then b else n
  | none => b

/- Argument handed to a vendor driver when a pool or database handle is
created.  Each constructor mirrors the object literal built by the
corresponding connect method. -/
inductive ConnArg where
  | connStr (s : String)
  | pgFields (host : Option String) (port : Nat) (database : String)
      (user : Option String) (password : Option String) (ssl : Bool)
      (poolMin poolMax : Nat)
  | myFields (host : Option String) (port : Nat) (database : String)
      (user : Option String) (password : Option String)
      (connectionLimit : Nat) (ssl : Bool)
  | msFields (server : String) (port : Nat) (database : String)
      (user : Option String) (password : Option String)
      (poolMin poolMax : Nat) (encrypt : Bool)
  | sqliteFile (path : String)
deriving DecidableEq

/- Observable driver-side actions performed by the clients. -/
inductive Ev where
  | driverConnect (arg : ConnArg)
  | closePool
  | closeDb
  | checkout
  | release
  | txBegin
  | txCommit
  | txRollback
  | queryPos (usingTx : Bool) (sql : List Char) (params : Option (List JsValue))
  | queryNamed (usingTx : Bool) (sql : List Char)
      (bindings : List (String × JsValue))
  | parseBody
deriving DecidableEq

/- First-occurrence replacement of a one-character search pattern: the
behavior of JavaScript String.prototype.replace at the single call site in
convertSql, where the search string is "?" (one character) and the
replacement text contains no dollar patterns.  When the pattern does not
occur the input is returned unchanged. -/
def jsReplaceFirst : List Char → Char → List Char → List Char
  | [], _, _ => []
  | c :: cs, pat, rep => if c = pat then rep ++ cs else c :: jsReplaceFirst cs pat rep

/- Characters of the template literal building the named token "@p" followed
by the decimal rendering of the index, as produced by toString on a number. -/
def atName (k : Nat) : List Char := '@' :: 'p' :: Nat.toDigits 10 k

/- MsSqlClient.convertSql (mssql.ts lines 62-71): for each parameter index the
first remaining "?" is replaced by the named token. -/
def MsSqlClient.convertSql (sqlQuery : List Char)
    (params : Option (List JsValue)) : List Char :=
  match params with
  | none => sqlQuery
  | some ps =>
      (List.range ps.length).foldl
        (fun acc i => jsReplaceFirst acc '?' (atName i)) sqlQuery

/- MsSqlClient.convertParams (mssql.ts lines 49-60): binds the parameter
named "p" ++ index to the positional argument at that index, in order.  The
mssql request object the bindings are added to is represented by the
resulting association list. -/
def MsSqlClient.convertParams (params : Option (List JsValue)) :
    List (String × JsValue) :=
  match params with
  | none => []
  | some ps => ps.enum.map (fun ip => ("p" ++ Nat.repr ip.1, ip.2))

/- PostgresClient (postgres.ts). -/

/- Pool configuration built by PostgresClient.connect (lines 82-99): the
connection string when truthy, otherwise the discrete fields with port,
pool.min and pool.max defaulted through JavaScript or-chains. -/
def pgConnArg (cfg : DatabaseConfig) : ConnArg :=
  if strTruthy cfg.connectionString then
    ConnArg.connStr (cfg.connectionString.getD "")
  else
    ConnArg.pgFields cfg.host (jsOrNat cfg.port 5432) cfg.database cfg.user
      cfg.password cfg.ssl (jsOrNat cfg.poolMin 1) (jsOrNat cfg.poolMax 10)

structure PostgresState where
  config : DatabaseConfig
  pool : Option Nat := none
  client : Option Nat := none
  isTransaction : Bool := false
deriving DecidableEq

/- The constructor new PostgresClient(config): stores the config, all other
private fields start out null / false. -/
def PostgresClient.init (config : DatabaseConfig) : PostgresState :=
  { config := config }

/- PostgresClient.connect.  dr is the outcome the driver produces when a new
pool is created: a fresh pool handle or a failure message.  When a pool is
already present the method returns at once, before any driver call. -/
def PostgresClient.connect (st : PostgresState) (dr : Except String Nat) :
    Except DbError Unit × PostgresState × List Ev :=
  if st.pool.isSome then (Except.ok (), st, [])
  else
    match dr with
    | Except.ok h =>
        (Except.ok (), { st with pool := some h },
          [Ev.driverConnect (pgConnArg st.config)])
    | Except.error msg =>
        (Except.error (DbError.connectionFailed msg), st,
          [Ev.driverConnect (pgConnArg st.config)])

/- PostgresClient.disconnect (lines 101-110): releases a held client if any,
then ends the pool if any.  Safe when already disconnected. -/
def PostgresClient.disconnect (st : PostgresState) : PostgresState × List Ev :=
  let p1 : PostgresState × List Ev :=
    if st.client.isSome then ({ st with client := none }, [Ev.release])
    else (st, [])
  if p1.1.pool.isSome then ({ p1.1 with pool := none }, p1.2 ++ [Ev.closePool])
  else p1

/- PostgresClient.query (lines 112-128): throws notConnected when no pool is
present, otherwise runs the statement on the transaction client or on the
pool.  The marshalling of the driver result set into rows, rowCount and
fields is a pass-through of driver output and is not modelled; success
carries Unit. -/
def PostgresClient.query (st : PostgresState) (sql : List Char)
    (params : Option (List JsValue)) : Except DbError Unit × List Ev :=
  if st.pool.isNone then (Except.error DbError.notConnected, [])
  else (Except.ok (), [Ev.queryPos st.isTransaction sql params])

/- PostgresClient.execute (lines 130-133): delegates to query and returns its
rowCount field. -/
def PostgresClient.execute (st : PostgresState) (sql : List Char)
    (params : Option (List JsValue)) : Except DbError Unit × List Ev :=
  PostgresClient.query st sql params

/- PostgresClient.transaction (lines 135-157).  The caller-supplied body is
represented by its settled outcome.  Control flow of the source: check the
pool, check out a client, set the transaction flag, then
try BEGIN / body / COMMIT / return, on a thrown error ROLLBACK and rethrow
the same error value, and in a finally block release the client, null the
slot and clear the flag.  The BEGIN / COMMIT / ROLLBACK statements are driver
calls modelled as succeeding. -/
def PostgresClient.transaction {τ : Type} (st : PostgresState)
    (_checkedOut : Nat) (body : Except DbError τ) :
    Except DbError τ × PostgresState × List Ev :=
  if st.pool.isNone then (Except.error DbError.notConnected, st, [])
  else
    let stDone : PostgresState := { st with client := none, isTransaction := false }
    match body with
    | Except.ok v =>
        (Except.ok v, stDone, [Ev.checkout, Ev.txBegin, Ev.txCommit, Ev.release])
    | Except.error e =>
        (Except.error e, stDone, [Ev.checkout, Ev.txBegin, Ev.txRollback, Ev.release])

/- MySqlClient (mysql.ts). -/

/- Pool options built by MySqlClient.connect (lines 49-61): always the
discrete fields; the connection string of the configuration is never consulted. -/
def mySqlConnArg (cfg : DatabaseConfig) : ConnArg :=
  ConnArg.myFields cfg.host (jsOrNat cfg.port 3306) cfg.database cfg.user
    cfg.password (jsOrNat cfg.poolMax 10) cfg.ssl

structure MySqlState where
  config : DatabaseConfig
  pool : Option Nat := none
  connection : Option Nat := none
  isTransaction : Bool := false
deriving DecidableEq

def MySqlClient.init (config : DatabaseConfig) : MySqlState :=
  { config := config }

def MySqlClient.connect (st : MySqlState) (dr : Except String Nat) :
    Except DbError Unit × MySqlState × List Ev :=
  if st.pool.isSome then (Except.ok (), st, [])
  else
    match dr with
    | Except.ok h =>
        (Except.ok (), { st with pool := some h },
          [Ev.driverConnect (mySqlConnArg st.config)])
    | Except.error msg =>
        (Except.error (DbError.connectionFailed msg), st,
          [Ev.driverConnect (mySqlConnArg st.config)])

def MySqlClient.disconnect (st : MySqlState) : MySqlState × List Ev :=
  let p1 : MySqlState × List Ev :=
    if st.connection.isSome then ({ st with connection := none }, [Ev.release])
    else (st, [])
  if p1.1.pool.isSome then ({ p1.1 with pool := none }, p1.2 ++ [Ev.closePool])
  else p1

def MySqlClient.query (st : MySqlState) (sql : List Char)
    (params : Option (List JsValue)) : Except DbError Unit × List Ev :=
  if st.pool.isNone then (Except.error DbError.notConnected, [])
  else (Except.ok (), [Ev.queryPos st.isTransaction sql params])

/- MySqlClient.execute (lines 96-105): repeats the pool check and runs the
statement itself, returning affectedRows. -/
def MySqlClient.execute (st : MySqlState) (sql : List Char)
    (params : Option (List JsValue)) : Except DbError Unit × List Ev :=
  if st.pool.isNone then (Except.error DbError.notConnected, [])
  else (Except.ok (), [Ev.queryPos st.isTransaction sql params])

def MySqlClient.transaction {τ : Type} (st : MySqlState)
    (_checkedOut : Nat) (body : Except DbError τ) :
    Except DbError τ × MySqlState × List Ev :=
  if st.pool.isNone then (Except.error DbError.notConnected, st, [])
  else
    let stDone : MySqlState := { st with connection := none, isTransaction := false }
    match body with
    | Except.ok v =>
        (Except.ok v, stDone, [Ev.checkout, Ev.txBegin, Ev.txCommit, Ev.release])
    | Except.error e =>
        (Except.error e, stDone, [Ev.checkout, Ev.txBegin, Ev.txRollback, Ev.release])

/- MsSqlClient (mssql.ts). -/

/- Connection argument built by MsSqlClient.connect (lines 14-37): the
connection string when truthy, otherwise the discrete fields with server
defaulted to localhost, port to 1433, pool sizes to 1 and 10, and encrypt
the truthiness of ssl (trustServerCertificate is constantly true and is
omitted). -/
def msSqlConnArg (cfg : DatabaseConfig) : ConnArg :=
  if strTruthy cfg.connectionString then
    ConnArg.connStr (cfg.connectionString.getD "")
  else
    ConnArg.msFields (jsOrOpt cfg.host "localhost") (jsOrNat cfg.port 1433)
      cfg.database cfg.user cfg.password (jsOrNat cfg.poolMin 1)
      (jsOrNat cfg.poolMax 10) cfg.ssl

structure MsSqlState where
  config : DatabaseConfig
  pool : Option Nat := none
  currentTransaction : Option Nat := none
  isTransaction : Bool := false
deriving DecidableEq

def MsSqlClient.init (config : DatabaseConfig) : MsSqlState :=
  { config := config }

def MsSqlClient.connect (st : MsSqlState) (dr : Except String Nat) :
    Except DbError Unit × MsSqlState × List Ev :=
  if st.pool.isSome then (Except.ok (), st, [])
  else
    match dr with
    | Except.ok h =>
        (Except.ok (), { st with pool := some h },
          [Ev.driverConnect (msSqlConnArg st.config)])
    | Except.error msg =>
        (Except.error (DbError.connectionFailed msg), st,
          [Ev.driverConnect (msSqlConnArg st.config)])

/- MsSqlClient.disconnect (lines 39-47): nulls the transaction slot without
any driver call, then closes the pool if present. -/
def MsSqlClient.disconnect (st : MsSqlState) : MsSqlState × List Ev :=
  let p1 : MsSqlState :=
    if st.currentTransaction.isSome then { st with currentTransaction := none }
    else st
  if p1.pool.isSome then ({ p1 with pool := none }, [Ev.closePool])
  else (p1, [])

/- MsSqlClient.query (lines 73-97): throws notConnected when no pool is
present; otherwise builds a request on the current transaction or on the
pool, adds the named bindings and runs the converted statement text. -/
def MsSqlClient.query (st : MsSqlState) (sqlQuery : List Char)
    (params : Option (List JsValue)) : Except DbError Unit × List Ev :=
  if st.pool.isNone then (Except.error DbError.notConnected, [])
  else
    (Except.ok (),
      [Ev.queryNamed st.isTransaction (MsSqlClient.convertSql sqlQuery params)
        (MsSqlClient.convertParams params)])

/- MsSqlClient.execute (lines 99-102): delegates to query and returns its
rowCount field. -/
def MsSqlClient.execute (st : MsSqlState) (sqlQuery : List Char)
    (params : Option (List JsValue)) : Except DbError Unit × List Ev :=
  MsSqlClient.query st sqlQuery params

/- MsSqlClient.transaction (lines 104-124): creates a driver transaction on
the pool, sets the flag, then try begin / body / commit, on a thrown error
rollback and rethrow the same error value, and in a finally block null the
slot and clear the flag. -/
def MsSqlClient.transaction {τ : Type} (st : MsSqlState)
    (_txHandle : Nat) (body : Except DbError τ) :
    Except DbError τ × MsSqlState × List Ev :=
  if st.pool.isNone then (Except.error DbError.notConnected, st, [])
  else
    let stDone : MsSqlState := { st with currentTransaction := none, isTransaction := false }
    match body with
    | Except.ok v => (Except.ok v, stDone, [Ev.txBegin, Ev.txCommit])
    | Except.error e => (Except.error e, stDone, [Ev.txBegin, Ev.txRollback])

/- SqliteClient (sqlite.ts). -/

structure SqliteState where
  config : DatabaseConfig
  db : Option Nat := none
deriving DecidableEq

def SqliteClient.init (config : DatabaseConfig) : SqliteState :=
  { config := config }

/- Path chosen by SqliteClient.connect (lines 12-17): the JavaScript
or-chain filePath, then database, then the in-memory marker. -/
def SqliteClient.filePathChoice (cfg : DatabaseConfig) : String :=
  jsOrOpt cfg.filePath (jsOrS cfg.database ":memory:")

def sqliteConnArg (cfg : DatabaseConfig) : ConnArg :=
  ConnArg.sqliteFile (SqliteClient.filePathChoice cfg)

def SqliteClient.connect (st : SqliteState) (dr : Except String Nat) :
    Except DbError Unit × SqliteState × List Ev :=
  if st.db.isSome then (Except.ok (), st, [])
  else
    match dr with
    | Except.ok h =>
        (Except.ok (), { st with db := some h },
          [Ev.driverConnect (sqliteConnArg st.config)])
    | Except.error msg =>
        (Except.error (DbError.connectionFailed msg), st,
          [Ev.driverConnect (sqliteConnArg st.config)])

def SqliteClient.disconnect (st : SqliteState) : SqliteState × List Ev :=
  if st.db.isSome then ({ st with db := none }, [Ev.closeDb])
  else (st, [])

/- SqliteClient.query (lines 26-42): stmt.all with the parameters defaulted
to the empty array. -/
def SqliteClient.query (st : SqliteState) (sql : List Char)
    (params : Option (List JsValue)) : Except DbError Unit × List Ev :=
  if st.db.isNone then (Except.error DbError.notConnected, [])
  else (Except.ok (), [Ev.queryPos false sql (some (params.getD []))])

/- SqliteClient.execute (lines 44-53): stmt.run, returning changes. -/
def SqliteClient.execute (st : SqliteState) (sql : List Char)
    (params : Option (List JsValue)) : Except DbError Unit × List Ev :=
  if st.db.isNone then (Except.error DbError.notConnected, [])
  else (Except.ok (), [Ev.queryPos false sql (some (params.getD []))])

/- The synchronous transaction primitive of the embedded-file driver,
modelled from the specification of the external collaborator: it begins,
invokes the wrapped function synchronously, commits when the function
returns normally, rolls back and rethrows when the function throws. -/
def sqliteDriverTx {ε τ : Type} (syncOutcome : Except ε τ) :
    Except ε τ × List Ev :=
  match syncOutcome with
  | Except.ok v => (Except.ok v, [Ev.txBegin, Ev.txCommit])
  | Except.error e => (Except.error e, [Ev.txBegin, Ev.txRollback])

/- SqliteClient.transaction (lines 55-65): wraps the caller-supplied body in
an async arrow and hands that to the driver primitive.  A JavaScript async
function never throws synchronously — it returns a promise — so the
primitive sees a normal return carrying the promise and the overall result
is obtained by awaiting that promise afterwards, yielding the settled
body outcome. -/
def SqliteClient.transaction {τ : Type} (st : SqliteState)
    (body : Except DbError τ) : Except DbError τ × SqliteState × List Ev :=
  if st.db.isNone then (Except.error DbError.notConnected, st, [])
  else
    match sqliteDriverTx (Except.ok body : Except DbError (Except DbError τ)) with
    | (Except.ok p, evs) => (p, st, evs)
    | (Except.error e, evs) => (Except.error e, st, evs)

/- DatabaseFactory (database-factory.ts). -/

/- The client instance the factory constructs: the chosen variant together
with the configuration stored by its constructor. -/
inductive ClientSpec where
  | postgres (config : DatabaseConfig)
  | mysql (config : DatabaseConfig)
  | mssql (config : DatabaseConfig)
  | sqlite (config : DatabaseConfig)
deriving DecidableEq

def ClientSpec.config : ClientSpec → DatabaseConfig
  | postgres c => c
  | mysql c => c
  | mssql c => c
  | sqlite c => c

/- DatabaseFactory.create (lines 7-21): the switch on the provider tag. -/
def DatabaseFactory.create (config : DatabaseConfig) : Except String ClientSpec :=
  if config.provider = "postgres" then Except.ok (ClientSpec.postgres config)
  else if config.provider = "mysql" then Except.ok (ClientSpec.mysql config)
  else if config.provider = "mssql" then Except.ok (ClientSpec.mssql config)
  else if config.provider = "sqlite" then Except.ok (ClientSpec.sqlite config)
  else Except.error ("Unsupported database provider: " ++ config.provider)

/- The database-related process environment variables read by fromEnv. -/
structure Env where
  DB_PROVIDER : Option String := none
  DB_HOST : Option String := none
  DB_PORT : Option String := none
  DB_NAME : Option String := none
  DB_DATABASE : Option String := none
  DB_USER : Option String := none
  DB_PASSWORD : Option String := none
  DB_FILE_PATH : Option String := none
  DB_CONNECTION_STRING : Option String := none
  DB_SSL : Option String := none
  DB_POOL_MIN : Option String := none
  DB_POOL_MAX : Option String := none
deriving DecidableEq

/- Guarded decimal parse used for DB_PORT and the pool sizes; the NaN and
truncated cases of the JavaScript integer parse are not reached by any
property below. -/
def envNat (v : Option String) : Option Nat :=
  match v with
  | some s => if s == "" then none else s.toNat?
  | none => none

/- The configuration object literal built by DatabaseFactory.fromEnv
(lines 30-48). -/
def envConfig (env : Env) : DatabaseConfig :=
  { provider := env.DB_PROVIDER.getD ""
    host := env.DB_HOST
    port := envNat env.DB_PORT
    database := jsOrOpt env.DB_NAME (jsOrOpt env.DB_DATABASE "")
    user := env.DB_USER
    password := env.DB_PASSWORD
    filePath := env.DB_FILE_PATH
    connectionString := env.DB_CONNECTION_STRING
    poolMin := envNat env.DB_POOL_MIN
    poolMax := envNat env.DB_POOL_MAX
    ssl := env.DB_SSL == some "true" }

/- DatabaseFactory.fromEnv (lines 23-51): a falsy provider variable is
rejected before the configuration is assembled and any client constructed. -/
def DatabaseFactory.fromEnv (env : Env) : Except String ClientSpec :=
  if strTruthy env.DB_PROVIDER = false then
    Except.error "DB_PROVIDER environment variable is required"
  else DatabaseFactory.create (envConfig env)

/- An environment with only the provider selector set. -/
def baseEnv (tag : String) : Env := { DB_PROVIDER := some tag }

/- ApiResponse (api-client.ts lines 122-160).  The private body field of
TypeScript type T-or-null starts out as JavaScript null; a parsed JSON body
of null is the same value, which is what the cache test compares against. -/
structure ApiResponseState where
  bodyCache : JsValue := JsValue.nullV
deriving DecidableEq

def ApiResponse.init : ApiResponseState := {}

/- ApiResponse.json (lines 146-151): parses and stores the body when the
cache field is still null, then returns the cache field.  parsed is the
value the underlying response body parses to; the parse emits an event. -/
def ApiResponse.json (st : ApiResponseState) (parsed : JsValue) :
    JsValue × ApiResponseState × List Ev :=
  if st.bodyCache = JsValue.nullV then
    (parsed, { bodyCache := parsed }, [Ev.parseBody])
  else (st.bodyCache, st, [])

/- Specification-side statement of the placeholder rewrite: the k-th
question-mark occurrence, counting from k upward left to right, becomes the
named token written by atName. -/
def specRewrite : List Char → Nat → List Char
  | [], _ => []
  | c :: cs, k =>
      if c = '?' then atName k ++ specRewrite cs (k + 1)
      else c :: specRewrite cs k

/- Number of question-mark characters in a statement text. -/
def qCount : List Char → Nat
  | [] => 0
  | c :: cs => qCount cs + (if c = '?' then 1 else 0)

/- n successive first-occurrence replacements with token indices k,
k + 1, ...: the loop of convertSql in recursive form. -/
def applyRange : List Char → Nat → Nat → List Char
  | s, _, 0 => s
  | s, k, n + 1 => applyRange (jsReplaceFirst s '?' (atName k)) (k + 1) n

/- Concrete configurations used by the closed statements below. -/

/- A mysql-style configuration that carries both discrete fields and a
connection string. -/
def cfgMyBoth : DatabaseConfig :=
  { provider := "mysql"
    database := "appdb"
    host := some "db-host"
    connectionString := some "mysql-connection-string" }

/- A postgres-style configuration that carries both discrete fields and a
connection string. -/
def cfgPgBoth : DatabaseConfig :=
  { provider := "postgres"
    database := "d"
    host := some "h"
    connectionString := some "cs" }

/- Helper facts about disconnect, shared by several properties below. -/

theorem pg_disconnect_fields (st : PostgresState) :
    (PostgresClient.disconnect st).1.pool = none ∧
    (PostgresClient.disconnect st).1.client = none ∧
    (PostgresClient.disconnect st).1.isTransaction = st.isTransaction ∧
    (PostgresClient.disconnect st).1.config = st.config := by
  rcases st with ⟨cfg, pool, client, tx⟩
  rcases pool with _ | p <;> rcases client with _ | c <;>
    simp [PostgresClient.disconnect]

theorem my_disconnect_fields (st : MySqlState) :
    (MySqlClient.disconnect st).1.pool = none ∧
    (MySqlClient.disconnect st).1.connection = none ∧
    (MySqlClient.disconnect st).1.isTransaction = st.isTransaction ∧
    (MySqlClient.disconnect st).1.config = st.config := by
  rcases st with ⟨cfg, pool, conn, tx⟩
  rcases pool with _ | p <;> rcases conn with _ | c <;>
    simp [MySqlClient.disconnect]

theorem ms_disconnect_fields (st : MsSqlState) :
    (MsSqlClient.disconnect st).1.pool = none ∧
    (MsSqlClient.disconnect st).1.currentTransaction = none ∧
    (MsSqlClient.disconnect st).1.isTransaction = st.isTransaction ∧
    (MsSqlClient.disconnect st).1.config = st.config := by
  rcases st with ⟨cfg, pool, ct, tx⟩
  rcases pool with _ | p <;> rcases ct with _ | c <;>
    simp [MsSqlClient.disconnect]

theorem sq_disconnect_fields (st : SqliteState) :
    (SqliteClient.disconnect st).1.db = none ∧
    (SqliteClient.disconnect st).1.config = st.config := by
  rcases st with ⟨cfg, db⟩
  rcases db with _ | d <;> simp [SqliteClient.disconnect]

/-- C4: for all four provider variants, calling query or execute on a client
whose pool (or embedded database handle) has not been established fails with
the not-connected error and performs no driver statement. -/
theorem C4_query_before_connect_guard (pgSt : PostgresState) (mySt : MySqlState)
    (msSt : MsSqlState) (sqSt : SqliteState) (sql : List Char)
    (params : Option (List JsValue))
    (h1 : pgSt.pool = none) (h2 : mySt.pool = none) (h3 : msSt.pool = none)
    (h4 : sqSt.db = none) :
    PostgresClient.query pgSt sql params = (Except.error DbError.notConnected, []) ∧
    PostgresClient.execute pgSt sql params = (Except.error DbError.notConnected, []) ∧
    MySqlClient.query mySt sql params = (Except.error DbError.notConnected, []) ∧
    MySqlClient.execute mySt sql params = (Except.error DbError.notConnected, []) ∧
    MsSqlClient.query msSt sql params = (Except.error DbError.notConnected, []) ∧
    MsSqlClient.execute msSt sql params = (Except.error DbError.notConnected, []) ∧
    SqliteClient.query sqSt sql params = (Except.error DbError.notConnected, []) ∧
    SqliteClient.execute sqSt sql params = (Except.error DbError.notConnected, []) := by
  simp [PostgresClient.query, PostgresClient.execute, MySqlClient.query,
    MySqlClient.execute, MsSqlClient.query, MsSqlClient.execute,
    SqliteClient.query, SqliteClient.execute, h1, h2, h3, h4]

/-- C4 witness: the guard observed on freshly constructed clients. -/
theorem C4_query_before_connect_guard_witness :
    (PostgresClient.init { provider := "postgres", database := "d" }).pool = none ∧
    PostgresClient.query (PostgresClient.init { provider := "postgres", database := "d" })
      ("SELECT 1".toList) none = (Except.error DbError.notConnected, []) := by
  refine ⟨rfl, ?_⟩
  exact (C4_query_before_connect_guard
    (PostgresClient.init { provider := "postgres", database := "d" })
    (MySqlClient.init { provider := "mysql", database := "d" })
    (MsSqlClient.init { provider := "mssql", database := "d" })
    (SqliteClient.init { provider := "sqlite", database := "d" })
    ("SELECT 1".toList) none rfl rfl rfl rfl).1

/-- C5: for all four provider variants a second connect call on an instance
whose first connect succeeded returns normally regardless of what the driver
would now do, leaves the state (in particular the pool established by the
first call) unchanged, and performs no driver call. -/
theorem C5_connect_idempotent (cfg : DatabaseConfig) (h : Nat)
    (dr : Except String Nat) :
    (PostgresClient.connect (PostgresClient.init cfg) (Except.ok h)).2.1.pool = some h ∧
    PostgresClient.connect
        (PostgresClient.connect (PostgresClient.init cfg) (Except.ok h)).2.1 dr
      = (Except.ok (),
          (PostgresClient.connect (PostgresClient.init cfg) (Except.ok h)).2.1, []) ∧
    (MySqlClient.connect (MySqlClient.init cfg) (Except.ok h)).2.1.pool = some h ∧
    MySqlClient.connect
        (MySqlClient.connect (MySqlClient.init cfg) (Except.ok h)).2.1 dr
      = (Except.ok (),
          (MySqlClient.connect (MySqlClient.init cfg) (Except.ok h)).2.1, []) ∧
    (MsSqlClient.connect (MsSqlClient.init cfg) (Except.ok h)).2.1.pool = some h ∧
    MsSqlClient.connect
        (MsSqlClient.connect (MsSqlClient.init cfg) (Except.ok h)).2.1 dr
      = (Except.ok (),
          (MsSqlClient.connect (MsSqlClient.init cfg) (Except.ok h)).2.1, []) ∧
    (SqliteClient.connect (SqliteClient.init cfg) (Except.ok h)).2.1.db = some h ∧
    SqliteClient.connect
        (SqliteClient.connect (SqliteClient.init cfg) (Except.ok h)).2.1 dr
      = (Except.ok (),
          (SqliteClient.connect (SqliteClient.init cfg) (Except.ok h)).2.1, []) := by
  simp [PostgresClient.connect, PostgresClient.init, MySqlClient.connect,
    MySqlClient.init, MsSqlClient.connect, MsSqlClient.init,
    SqliteClient.connect, SqliteClient.init]

/-- C6: the factory rejects an unsupported provider tag with an error naming
that tag, and the environment-derived path rejects a falsy provider selector
with the missing-configuration error, in both cases without producing a
client. -/
theorem C6_factory_errors (cfg : DatabaseConfig) (env : Env)
    (h1 : cfg.provider ≠ "postgres") (h2 : cfg.provider ≠ "mysql")
    (h3 : cfg.provider ≠ "mssql") (h4 : cfg.provider ≠ "sqlite")
    (h5 : strTruthy env.DB_PROVIDER = false) :
    DatabaseFactory.create cfg
      = Except.error ("Unsupported database provider: " ++ cfg.provider) ∧
    DatabaseFactory.fromEnv env
      = Except.error "DB_PROVIDER environment variable is required" := by
  simp [DatabaseFactory.create, DatabaseFactory.fromEnv, h1, h2, h3, h4, h5]

/-- C6 witness: a concrete unsupported tag and an empty environment. -/
theorem C6_factory_errors_witness :
    DatabaseFactory.create { provider := "oracle", database := "d" }
      = Except.error "Unsupported database provider: oracle" ∧
    DatabaseFactory.fromEnv {}
      = Except.error "DB_PROVIDER environment variable is required" := by
  have h := C6_factory_errors { provider := "oracle", database := "d" } {}
    (by decide) (by decide) (by decide) (by decide) rfl
  exact h

/-- C9: with the provider selector set to any supported tag and every other
database variable unset, fromEnv succeeds and the constructed client stores a
configuration whose database name is the empty string; for the sqlite tag a
subsequent connect falls back to opening the in-memory path. -/
theorem C9_fromEnv_minimal (tag : String)
    (h : tag = "postgres" ∨ tag = "mysql" ∨ tag = "mssql" ∨ tag = "sqlite") :
    (∃ c : ClientSpec, DatabaseFactory.fromEnv (baseEnv tag) = Except.ok c ∧
      c.config = envConfig (baseEnv tag)) ∧
    (envConfig (baseEnv tag)).database = "" ∧
    SqliteClient.filePathChoice (envConfig (baseEnv "sqlite")) = ":memory:" ∧
    (SqliteClient.connect (SqliteClient.init (envConfig (baseEnv "sqlite")))
        (Except.ok 0)).2.2
      = [Ev.driverConnect (ConnArg.sqliteFile ":memory:")] := by
  rcases h with rfl | rfl | rfl | rfl <;>
    exact ⟨⟨_, rfl, rfl⟩, rfl, rfl, rfl⟩

/-- C9 witness: the sqlite tag. -/
theorem C9_fromEnv_minimal_witness :
    ("sqlite" = "postgres" ∨ "sqlite" = "mysql" ∨ "sqlite" = "mssql" ∨
      "sqlite" = "sqlite") ∧
    (envConfig (baseEnv "sqlite")).database = "" ∧
    SqliteClient.filePathChoice (envConfig (baseEnv "sqlite")) = ":memory:" := by
  have h := C9_fromEnv_minimal "sqlite" (by decide)
  exact ⟨by decide, h.2.1, h.2.2.1⟩

theorem pg_disconnect_noop (st : PostgresState)
    (hc : st.client = none) (hp : st.pool = none) :
    PostgresClient.disconnect st = (st, []) := by
  rcases st with ⟨cfg, pool, client, tx⟩
  simp only at hc hp
  subst hc; subst hp
  simp [PostgresClient.disconnect]

theorem my_disconnect_noop (st : MySqlState)
    (hc : st.connection = none) (hp : st.pool = none) :
    MySqlClient.disconnect st = (st, []) := by
  rcases st with ⟨cfg, pool, conn, tx⟩
  simp only at hc hp
  subst hc; subst hp
  simp [MySqlClient.disconnect]

theorem ms_disconnect_noop (st : MsSqlState)
    (hc : st.currentTransaction = none) (hp : st.pool = none) :
    MsSqlClient.disconnect st = (st, []) := by
  rcases st with ⟨cfg, pool, ct, tx⟩
  simp only at hc hp
  subst hc; subst hp
  simp [MsSqlClient.disconnect]

theorem sq_disconnect_noop (st : SqliteState) (hd : st.db = none) :
    SqliteClient.disconnect st = (st, []) := by
  rcases st with ⟨cfg, db⟩
  simp only at hd
  subst hd
  simp [SqliteClient.disconnect]

theorem pg_connect_fresh (st : PostgresState) (h : Nat)
    (hp : st.pool = none) :
    PostgresClient.connect st (Except.ok h)
      = (Except.ok (), { st with pool := some h },
          [Ev.driverConnect (pgConnArg st.config)]) := by
  simp [PostgresClient.connect, hp]

theorem my_connect_fresh (st : MySqlState) (h : Nat)
    (hp : st.pool = none) :
    MySqlClient.connect st (Except.ok h)
      = (Except.ok (), { st with pool := some h },
          [Ev.driverConnect (mySqlConnArg st.config)]) := by
  simp [MySqlClient.connect, hp]

theorem ms_connect_fresh (st : MsSqlState) (h : Nat)
    (hp : st.pool = none) :
    MsSqlClient.connect st (Except.ok h)
      = (Except.ok (), { st with pool := some h },
          [Ev.driverConnect (msSqlConnArg st.config)]) := by
  simp [MsSqlClient.connect, hp]

theorem sq_connect_fresh (st : SqliteState) (h : Nat)
    (hd : st.db = none) :
    SqliteClient.connect st (Except.ok h)
      = (Except.ok (), { st with db := some h },
          [Ev.driverConnect (sqliteConnArg st.config)]) := by
  simp [SqliteClient.connect, hd]

/-- C10: for all four provider variants, after disconnect returns the
instance is back in the unconnected regime: a second disconnect is a no-op,
query and execute fail with the not-connected error and no driver statement
exactly as on a freshly constructed instance, and a further connect
establishes a new pool or handle yielding a client whose query succeeds.
The instances are not inside an active transaction body. -/
theorem C10_disconnect_resets (pgSt : PostgresState) (mySt : MySqlState)
    (msSt : MsSqlState) (sqSt : SqliteState) (sql : List Char)
    (params : Option (List JsValue)) (h : Nat)
    (t1 : pgSt.isTransaction = false) (t2 : mySt.isTransaction = false)
    (t3 : msSt.isTransaction = false) :
    (PostgresClient.disconnect (PostgresClient.disconnect pgSt).1
        = ((PostgresClient.disconnect pgSt).1, []) ∧
      PostgresClient.query (PostgresClient.disconnect pgSt).1 sql params
        = (Except.error DbError.notConnected, []) ∧
      PostgresClient.execute (PostgresClient.disconnect pgSt).1 sql params
        = (Except.error DbError.notConnected, []) ∧
      PostgresClient.query (PostgresClient.init pgSt.config) sql params
        = (Except.error DbError.notConnected, []) ∧
      (PostgresClient.connect (PostgresClient.disconnect pgSt).1 (Except.ok h)).1
        = Except.ok () ∧
      (PostgresClient.connect (PostgresClient.disconnect pgSt).1
          (Except.ok h)).2.1.pool = some h ∧
      PostgresClient.query
          (PostgresClient.connect (PostgresClient.disconnect pgSt).1
            (Except.ok h)).2.1 sql params
        = (Except.ok (), [Ev.queryPos false sql params])) ∧
    (MySqlClient.disconnect (MySqlClient.disconnect mySt).1
        = ((MySqlClient.disconnect mySt).1, []) ∧
      MySqlClient.query (MySqlClient.disconnect mySt).1 sql params
        = (Except.error DbError.notConnected, []) ∧
      MySqlClient.execute (MySqlClient.disconnect mySt).1 sql params
        = (Except.error DbError.notConnected, []) ∧
      MySqlClient.query (MySqlClient.init mySt.config) sql params
        = (Except.error DbError.notConnected, []) ∧
      (MySqlClient.connect (MySqlClient.disconnect mySt).1 (Except.ok h)).1
        = Except.ok () ∧
      (MySqlClient.connect (MySqlClient.disconnect mySt).1
          (Except.ok h)).2.1.pool = some h ∧
      MySqlClient.query
          (MySqlClient.connect (MySqlClient.disconnect mySt).1
            (Except.ok h)).2.1 sql params
        = (Except.ok (), [Ev.queryPos false sql params])) ∧
    (MsSqlClient.disconnect (MsSqlClient.disconnect msSt).1
        = ((MsSqlClient.disconnect msSt).1, []) ∧
      MsSqlClient.query (MsSqlClient.disconnect msSt).1 sql params
        = (Except.error DbError.notConnected, []) ∧
      MsSqlClient.execute (MsSqlClient.disconnect msSt).1 sql params
        = (Except.error DbError.notConnected, []) ∧
      MsSqlClient.query (MsSqlClient.init msSt.config) sql params
        = (Except.error DbError.notConnected, []) ∧
      (MsSqlClient.connect (MsSqlClient.disconnect msSt).1 (Except.ok h)).1
        = Except.ok () ∧
      (MsSqlClient.connect (MsSqlClient.disconnect msSt).1
          (Except.ok h)).2.1.pool = some h ∧
      MsSqlClient.query
          (MsSqlClient.connect (MsSqlClient.disconnect msSt).1
            (Except.ok h)).2.1 sql params
        = (Except.ok (), [Ev.queryNamed false (MsSqlClient.convertSql sql params)
            (MsSqlClient.convertParams params)])) ∧
    (SqliteClient.disconnect (SqliteClient.disconnect sqSt).1
        = ((SqliteClient.disconnect sqSt).1, []) ∧
      SqliteClient.query (SqliteClient.disconnect sqSt).1 sql params
        = (Except.error DbError.notConnected, []) ∧
      SqliteClient.execute (SqliteClient.disconnect sqSt).1 sql params
        = (Except.error DbError.notConnected, []) ∧
      SqliteClient.query (SqliteClient.init sqSt.config) sql params
        = (Except.error DbError.notConnected, []) ∧
      (SqliteClient.connect (SqliteClient.disconnect sqSt).1 (Except.ok h)).1
        = Except.ok () ∧
      (SqliteClient.connect (SqliteClient.disconnect sqSt).1
          (Except.ok h)).2.1.db = some h ∧
      SqliteClient.query
          (SqliteClient.connect (SqliteClient.disconnect sqSt).1
            (Except.ok h)).2.1 sql params
        = (Except.ok (), [Ev.queryPos false sql (some (params.getD []))])) := by
  obtain ⟨p1, c1, i1, f1⟩ := pg_disconnect_fields pgSt
  obtain ⟨p2, c2, i2, f2⟩ := my_disconnect_fields mySt
  obtain ⟨p3, c3, i3, f3⟩ := ms_disconnect_fields msSt
  obtain ⟨p4, f4⟩ := sq_disconnect_fields sqSt
  refine ⟨⟨pg_disconnect_noop _ c1 p1, ?_, ?_, ?_, ?_, ?_, ?_⟩,
    ⟨my_disconnect_noop _ c2 p2, ?_, ?_, ?_, ?_, ?_, ?_⟩,
    ⟨ms_disconnect_noop _ c3 p3, ?_, ?_, ?_, ?_, ?_, ?_⟩,
    ⟨sq_disconnect_noop _ p4, ?_, ?_, ?_, ?_, ?_, ?_⟩⟩
  · simp [PostgresClient.query, p1]
  · simp [PostgresClient.execute, PostgresClient.query, p1]
  · simp [PostgresClient.query, PostgresClient.init]
  · rw [pg_connect_fresh _ h p1]
  · rw [pg_connect_fresh _ h p1]
  · rw [pg_connect_fresh _ h p1]
    simp [PostgresClient.query, i1, t1]
  · simp [MySqlClient.query, p2]
  · simp [MySqlClient.execute, p2]
  · simp [MySqlClient.query, MySqlClient.init]
  · rw [my_connect_fresh _ h p2]
  · rw [my_connect_fresh _ h p2]
  · rw [my_connect_fresh _ h p2]
    simp [MySqlClient.query, i2, t2]
  · simp [MsSqlClient.query, p3]
  · simp [MsSqlClient.execute, MsSqlClient.query, p3]
  · simp [MsSqlClient.query, MsSqlClient.init]
  · rw [ms_connect_fresh _ h p3]
  · rw [ms_connect_fresh _ h p3]
  · rw [ms_connect_fresh _ h p3]
    simp [MsSqlClient.query, i3, t3]
  · simp [SqliteClient.query, p4]
  · simp [SqliteClient.execute, p4]
  · simp [SqliteClient.query, SqliteClient.init]
  · rw [sq_connect_fresh _ h p4]
  · rw [sq_connect_fresh _ h p4]
  · rw [sq_connect_fresh _ h p4]
    simp [SqliteClient.query]

/-- C10 witness: a connected postgres-style instance outside any
transaction. -/
theorem C10_disconnect_resets_witness :
    ({ config := { provider := "postgres", database := "d" }, pool := some 0 } :
        PostgresState).isTransaction = false ∧
    PostgresClient.query
        (PostgresClient.disconnect
          { config := { provider := "postgres", database := "d" }, pool := some 0 }).1
        ("SELECT 1".toList) none
      = (Except.error DbError.notConnected, []) := by
  refine ⟨rfl, ?_⟩
  exact (C10_disconnect_resets
    { config := { provider := "postgres", database := "d" }, pool := some 0 }
    (MySqlClient.init { provider := "mysql", database := "d" })
    (MsSqlClient.init { provider := "mssql", database := "d" })
    (SqliteClient.init { provider := "sqlite", database := "d" })
    ("SELECT 1".toList) none 1 rfl rfl rfl).1.2.1

/- Transaction behavior of the three pool-based variants: commit and result
on a normal return, rollback and the identical error value on a failing
body, and on both paths the handle slot cleared (and, for postgres and
mysql, the checked-out connection released) before returning. -/

theorem pg_transaction_ok {τ : Type} (st : PostgresState)
    (co : Nat) (v : τ) (p : Nat) (hp : st.pool = some p) :
    PostgresClient.transaction st co (Except.ok v)
      = (Except.ok v, { st with client := none, isTransaction := false },
          [Ev.checkout, Ev.txBegin, Ev.txCommit, Ev.release]) := by
  simp [PostgresClient.transaction, hp]

theorem pg_transaction_error {τ : Type} (st : PostgresState)
    (co : Nat) (e : DbError) (p : Nat) (hp : st.pool = some p) :
    PostgresClient.transaction st co (Except.error e : Except DbError τ)
      = (Except.error e, { st with client := none, isTransaction := false },
          [Ev.checkout, Ev.txBegin, Ev.txRollback, Ev.release]) := by
  simp [PostgresClient.transaction, hp]

theorem my_transaction_ok {τ : Type} (st : MySqlState)
    (co : Nat) (v : τ) (p : Nat) (hp : st.pool = some p) :
    MySqlClient.transaction st co (Except.ok v)
      = (Except.ok v, { st with connection := none, isTransaction := false },
          [Ev.checkout, Ev.txBegin, Ev.txCommit, Ev.release]) := by
  simp [MySqlClient.transaction, hp]

theorem my_transaction_error {τ : Type} (st : MySqlState)
    (co : Nat) (e : DbError) (p : Nat) (hp : st.pool = some p) :
    MySqlClient.transaction st co (Except.error e : Except DbError τ)
      = (Except.error e, { st with connection := none, isTransaction := false },
          [Ev.checkout, Ev.txBegin, Ev.txRollback, Ev.release]) := by
  simp [MySqlClient.transaction, hp]

theorem ms_transaction_ok {τ : Type} (st : MsSqlState)
    (tx : Nat) (v : τ) (p : Nat) (hp : st.pool = some p) :
    MsSqlClient.transaction st tx (Except.ok v)
      = (Except.ok v, { st with currentTransaction := none, isTransaction := false },
          [Ev.txBegin, Ev.txCommit]) := by
  simp [MsSqlClient.transaction, hp]

theorem ms_transaction_error {τ : Type} (st : MsSqlState)
    (tx : Nat) (e : DbError) (p : Nat) (hp : st.pool = some p) :
    MsSqlClient.transaction st tx (Except.error e : Except DbError τ)
      = (Except.error e, { st with currentTransaction := none, isTransaction := false },
          [Ev.txBegin, Ev.txRollback]) := by
  simp [MsSqlClient.transaction, hp]

/-- C3: on the embedded-file variant a transaction body that fails is not
rolled back: the driver primitive sees the async wrapper return its promise
normally and commits, and the error of the body then propagates without any
rollback — against the stated behavior for every provider variant. -/
theorem C3_sqlite_transaction_commits_despite_error :
    SqliteClient.transaction
        { config := { provider := "sqlite", database := "d" }, db := some 0 }
        (Except.error (DbError.userRaised 7) : Except DbError Nat)
      = (Except.error (DbError.userRaised 7),
          { config := { provider := "sqlite", database := "d" }, db := some 0 },
          [Ev.txBegin, Ev.txCommit]) ∧
    Ev.txRollback ∉ [Ev.txBegin, Ev.txCommit] :=
  ⟨rfl, by decide⟩

/-- C7 counterexample: a mysql-style configuration carrying a truthy
connection string is connected through the discrete fields; the connection
string never reaches the driver. -/
theorem C7_counterexample_mysql_ignores_connstr :
    strTruthy cfgMyBoth.connectionString = true ∧
    (MySqlClient.connect (MySqlClient.init cfgMyBoth) (Except.ok 0)).2.2
      = [Ev.driverConnect (ConnArg.myFields (some "db-host") 3306 "appdb" none
          none 10 false)] ∧
    mySqlConnArg cfgMyBoth ≠ ConnArg.connStr "mysql-connection-string" :=
  ⟨rfl, rfl, by decide⟩

/-- C7 amended: the postgres-style and SQL-Server-style variants hand a
truthy connection string to the driver and leave the discrete fields unused,
while the mysql-style variant always connects through the discrete fields
and the embedded-file variant always opens a file path: neither ever passes
a connection string to its driver. -/
theorem C7_connstr_amended (cfg : DatabaseConfig) (s : String)
    (hs : cfg.connectionString = some s) (hne : s ≠ "") :
    pgConnArg cfg = ConnArg.connStr s ∧
    msSqlConnArg cfg = ConnArg.connStr s ∧
    (PostgresClient.connect (PostgresClient.init cfg) (Except.ok 0)).2.2
      = [Ev.driverConnect (ConnArg.connStr s)] ∧
    (MsSqlClient.connect (MsSqlClient.init cfg) (Except.ok 0)).2.2
      = [Ev.driverConnect (ConnArg.connStr s)] ∧
    (∀ t : String, mySqlConnArg cfg ≠ ConnArg.connStr t) ∧
    (∀ t : String, sqliteConnArg cfg ≠ ConnArg.connStr t) := by
  have htr : strTruthy (some s) = true := by
    simp [strTruthy, hne]
  have hpg : pgConnArg cfg = ConnArg.connStr s := by
    simp [pgConnArg, hs, htr]
  have hms : msSqlConnArg cfg = ConnArg.connStr s := by
    simp [msSqlConnArg, hs, htr]
  refine ⟨hpg, hms, ?_, ?_, ?_, ?_⟩
  · simp [PostgresClient.connect, PostgresClient.init, hpg]
  · simp [MsSqlClient.connect, MsSqlClient.init, hms]
  · intro t; simp [mySqlConnArg]
  · intro t; simp [sqliteConnArg]

/-- C7 witness: a configuration with both a connection string and discrete
fields, handed to the two variants that honor the connection string. -/
theorem C7_connstr_amended_witness :
    cfgPgBoth.connectionString = some "cs" ∧
    ("cs" : String) ≠ "" ∧
    pgConnArg cfgPgBoth = ConnArg.connStr "cs" ∧
    msSqlConnArg cfgPgBoth = ConnArg.connStr "cs" :=
  ⟨rfl, by decide,
    (C7_connstr_amended cfgPgBoth "cs" rfl (by decide)).1,
    (C7_connstr_amended cfgPgBoth "cs" rfl (by decide)).2.1⟩

/-- C8 counterexample: when the parsed body is the JSON null value the cache
field never registers as filled, so the second json call invokes the
underlying parse again. -/
theorem C8_counterexample_null_body_reparsed :
    (ApiResponse.json (ApiResponse.json ApiResponse.init JsValue.nullV).2.1
        JsValue.nullV).2.2 = [Ev.parseBody] := rfl

/-- C8 amended: for every parsed body value other than JSON null, the first
json call parses once and stores the value, and any later call returns the
stored value with no further parse; a null body is re-parsed on every call
because it coincides with the empty-cache sentinel. -/
theorem C8_json_memoized_amended (parsed p2 : JsValue)
    (h : parsed ≠ JsValue.nullV) :
    ApiResponse.json ApiResponse.init parsed
      = (parsed, { bodyCache := parsed }, [Ev.parseBody]) ∧
    ApiResponse.json { bodyCache := parsed } p2
      = (parsed, { bodyCache := parsed }, []) := by
  constructor
  · simp [ApiResponse.json, ApiResponse.init]
  · simp [ApiResponse.json, h]

/-- C8 witness: a numeric body is parsed once and then served from the
cache. -/
theorem C8_json_memoized_amended_witness :
    (JsValue.numV 1 ≠ JsValue.nullV) ∧
    ApiResponse.json { bodyCache := JsValue.numV 1 } (JsValue.numV 2)
      = (JsValue.numV 1, { bodyCache := JsValue.numV 1 }, []) :=
  ⟨by decide, (C8_json_memoized_amended (JsValue.numV 1) (JsValue.numV 2)
    (by decide)).2⟩

/-- C2: the rewrite does not recognize quoted string constants — with one
parameter the first question mark of the statement text, which sits inside a
quoted literal, is rewritten to the named token while the actual placeholder
is left as a question mark. -/
theorem C2_quoted_literal_rewritten :
    MsSqlClient.convertSql ("SELECT '?', ?".toList) (some [JsValue.numV 1])
      = ("SELECT '@p0', ?".toList) := by decide

/- The decimal rendering of an index contains no question-mark character, so
an inserted named token is never hit by a later replacement step. -/

theorem digitChar_ne_qm (n : Nat) : Nat.digitChar n ≠ '?' := by
  rcases Nat.lt_or_ge n 16 with h | h
  · interval_cases n <;> decide
  · obtain ⟨m, rfl⟩ : ∃ m, n = m + 16 := ⟨n - 16, by omega⟩
    rw [Nat.digitChar]
    rw [if_neg (by omega : ¬ (m + 16 = 0)), if_neg (by omega : ¬ (m + 16 = 1)),
      if_neg (by omega : ¬ (m + 16 = 2)), if_neg (by omega : ¬ (m + 16 = 3)),
      if_neg (by omega : ¬ (m + 16 = 4)), if_neg (by omega : ¬ (m + 16 = 5)),
      if_neg (by omega : ¬ (m + 16 = 6)), if_neg (by omega : ¬ (m + 16 = 7)),
      if_neg (by omega : ¬ (m + 16 = 8)), if_neg (by omega : ¬ (m + 16 = 9)),
      if_neg (by omega : ¬ (m + 16 = 10)), if_neg (by omega : ¬ (m + 16 = 11)),
      if_neg (by omega : ¬ (m + 16 = 12)), if_neg (by omega : ¬ (m + 16 = 13)),
      if_neg (by omega : ¬ (m + 16 = 14)), if_neg (by omega : ¬ (m + 16 = 15))]
    decide

theorem toDigitsCore_ne_qm (b : Nat) (fuel : Nat) :
    ∀ (n : Nat) (acc : List Char), (∀ c ∈ acc, c ≠ '?') →
      ∀ c ∈ Nat.toDigitsCore b fuel n acc, c ≠ '?' := by
  induction fuel with
  | zero =>
    intro n acc hacc c hc
    exact hacc c hc
  | succ fuel ih =>
    intro n acc hacc c hc
    rw [Nat.toDigitsCore] at hc
    split at hc
    · rcases List.mem_cons.mp hc with rfl | hmem
      · exact digitChar_ne_qm _
      · exact hacc c hmem
    · refine ih (n / b) (Nat.digitChar (n % b) :: acc) ?_ c hc
      intro c' hc'
      rcases List.mem_cons.mp hc' with rfl | hmem
      · exact digitChar_ne_qm _
      · exact hacc c' hmem

theorem qm_not_mem_atName (k : Nat) : '?' ∉ atName k := by
  intro hmem
  rcases List.mem_cons.mp hmem with h | hmem
  · exact absurd h (by decide)
  rcases List.mem_cons.mp hmem with h | hmem
  · exact absurd h (by decide)
  exact toDigitsCore_ne_qm 10 (k + 1) k [] (by intro c hc; cases hc) '?' hmem rfl

theorem jsReplaceFirst_append_of_not_mem (t u r : List Char)
    (ht : '?' ∉ t) :
    jsReplaceFirst (t ++ u) '?' r = t ++ jsReplaceFirst u '?' r := by
  induction t with
  | nil => rfl
  | cons c cs ih =>
    have hc : ¬ c = '?' := fun h => ht (h ▸ List.mem_cons_self c cs)
    have hcs : '?' ∉ cs := fun h => ht (List.mem_cons_of_mem c h)
    simp [jsReplaceFirst, hc, ih hcs]

theorem applyRange_append_of_not_mem (t : List Char) (ht : '?' ∉ t) :
    ∀ (n : Nat) (u : List Char) (k : Nat),
      applyRange (t ++ u) k n = t ++ applyRange u k n := by
  intro n
  induction n with
  | zero => intro u k; rfl
  | succ n ih =>
    intro u k
    show applyRange (jsReplaceFirst (t ++ u) '?' (atName k)) (k + 1) n = _
    rw [jsReplaceFirst_append_of_not_mem t u (atName k) ht, ih]
    rfl

theorem applyRange_qCount (s : List Char) : ∀ k : Nat,
    applyRange s k (qCount s) = specRewrite s k := by
  induction s with
  | nil => intro k; rfl
  | cons c cs ih =>
    intro k
    by_cases hc : c = '?'
    · subst hc
      show applyRange ('?' :: cs) k (qCount cs + 1) = _
      show applyRange (jsReplaceFirst ('?' :: cs) '?' (atName k)) (k + 1) (qCount cs) = _
      have hrep : jsReplaceFirst ('?' :: cs) '?' (atName k) = atName k ++ cs := by
        simp [jsReplaceFirst]
      rw [hrep, applyRange_append_of_not_mem (atName k) (qm_not_mem_atName k),
        ih (k + 1)]
      simp [specRewrite]
    · have hq : qCount (c :: cs) = qCount cs := by simp [qCount, hc]
      have hsingle : '?' ∉ [c] := by
        intro h
        rcases List.mem_singleton.mp h with rfl
        exact hc rfl
      rw [hq]
      have : applyRange (c :: cs) k (qCount cs)
          = applyRange ([c] ++ cs) k (qCount cs) := rfl
      rw [this, applyRange_append_of_not_mem [c] hsingle, ih k]
      simp [specRewrite, hc]

theorem range'_foldl_applyRange (n : Nat) : ∀ (s : List Char) (k : Nat),
    (List.range' k n).foldl (fun acc i => jsReplaceFirst acc '?' (atName i)) s
      = applyRange s k n := by
  induction n with
  | zero => intro s k; rfl
  | succ n ih =>
    intro s k
    rw [List.range'_succ, List.foldl_cons, ih]
    rfl

theorem convertSql_eq_specRewrite (s : List Char) (ps : List JsValue)
    (h : qCount s = ps.length) :
    MsSqlClient.convertSql s (some ps) = specRewrite s 0 := by
  show (List.range ps.length).foldl
      (fun acc i => jsReplaceFirst acc '?' (atName i)) s = _
  rw [List.range_eq_range', range'_foldl_applyRange, ← h, applyRange_qCount]

theorem convertParams_get (ps : List JsValue) :
    ∀ i : Nat, (MsSqlClient.convertParams (some ps))[i]?
      = ps[i]?.map (fun p => ("p" ++ Nat.repr i, p)) := by
  show ∀ i, ((ps.enum.map fun ip => ("p" ++ Nat.repr ip.1, ip.2))[i]?) = _
  have henum : ∀ (k i : Nat) (l : List JsValue),
      (List.enumFrom k l)[i]? = l[i]?.map (fun p => (k + i, p)) := by
    intro k i l
    induction l generalizing k i with
    | nil => simp [List.enumFrom]
    | cons a as ih =>
      cases i with
      | zero => simp [List.enumFrom]
      | succ i =>
        simp only [List.enumFrom, List.getElem?_cons_succ]
        rw [ih (k + 1) i]
        cases h : as[i]? <;> simp [Nat.add_assoc, Nat.add_comm 1 i]
  intro i
  rw [List.getElem?_map, List.enum, henum 0 i ps]
  cases h : ps[i]? <;> simp

/-- C1: for the SQL-Server-style client, a statement text containing exactly
as many question-mark placeholders as there are positional parameters has
each of them rewritten, in left-to-right order of occurrence, into the named
tokens with indices 0, 1, ..., and the parameter named after index i is bound
to the i-th positional argument. -/
theorem C1_mssql_placeholder_rewrite (s : List Char) (ps : List JsValue)
    (h : qCount s = ps.length) :
    MsSqlClient.convertSql s (some ps) = specRewrite s 0 ∧
    ∀ i : Nat, (MsSqlClient.convertParams (some ps))[i]?
      = ps[i]?.map (fun p => ("p" ++ Nat.repr i, p)) :=
  ⟨convertSql_eq_specRewrite s ps h, convertParams_get ps⟩

/-- C1 witness: a query with three placeholders and three arguments. -/
theorem C1_mssql_placeholder_rewrite_witness :
    qCount ("SELECT ?, ?, ?".toList)
      = ([JsValue.numV 1, JsValue.numV 2, JsValue.numV 3] : List JsValue).length ∧
    (MsSqlClient.convertSql ("SELECT ?, ?, ?".toList)
        (some [JsValue.numV 1, JsValue.numV 2, JsValue.numV 3])
      = specRewrite ("SELECT ?, ?, ?".toList) 0 ∧
    ∀ i : Nat, (MsSqlClient.convertParams
        (some [JsValue.numV 1, JsValue.numV 2, JsValue.numV 3]))[i]?
      = ([JsValue.numV 1, JsValue.numV 2, JsValue.numV 3] :
          List JsValue)[i]?.map (fun p => ("p" ++ Nat.repr i, p))) :=
  ⟨by decide, C1_mssql_placeholder_rewrite ("SELECT ?, ?, ?".toList)
    [JsValue.numV 1, JsValue.numV 2, JsValue.numV 3] (by decide)⟩

/- Worked instance of the rewrite: three placeholders become the first three
named tokens in order. -/
theorem mssql_three_placeholder_example :
    MsSqlClient.convertSql ("SELECT ?, ?, ?".toList)
        (some [JsValue.numV 1, JsValue.numV 2, JsValue.numV 3])
      = ("SELECT @p0, @p1, @p2".toList) := by decide
